import Mathlib

/-
Verification of the rfm69 packet-radio driver (radio.go, the canonical
variant using chip-autonomous mode transitions and threshold-paced
chunked FIFO writes).

The driver is shallowly embedded: the radio instance is a state record,
the hardware register interface is an environment oracle (register read
values indexed by a global operation counter, plus a failure-injection
predicate), and every hardware operation is recorded in an event trace.
Unbounded polling loops are given fuel; running out of fuel is the
distinguished outcome `stuck`, and the fatal misuse path (log.Panicf)
is the outcome `panicked`.
-/

namespace Rfm69

/-- Constants from radio.go. -/
def maxPacketSize : Nat := 110

def fifoSize : Nat := 66

def fifoThreshold : Nat := 20

/-- One byte-transmission duration, used as the time unit for timeouts. -/
def byteDuration : Int := 1

/-- Modelled from the spec: register addresses (the register table file is
not under src/; §6 names a FIFO data register, an operating-mode register,
the IrqFlags2 status register and the auto-mode configuration register).
Concrete values are the chip's usual addresses; no claim depends on them. -/
def RegFifo : Nat := 0x00

def RegOpMode : Nat := 0x01

def RegIrqFlags2 : Nat := 0x28

def RegAutoModes : Nat := 0x3B

/-- Modelled from the spec: IrqFlags2 bit flags (§3, §6). -/
def FifoFull : Nat := 0x80

def FifoNotEmpty : Nat := 0x40

def FifoLevel : Nat := 0x20

def FifoOverrun : Nat := 0x10

/-- Modelled from the spec: auto-mode configuration encodings (§6). -/
def EnterConditionFifoNotEmpty : Nat := 0x20

def ExitConditionFifoEmpty : Nat := 0x04

def IntermediateModeTx : Nat := 0x03

inductive Mode
  | SleepMode
  | StandbyMode
  | TransmitterMode
  | ReceiverMode
deriving DecidableEq, Repr

/-- Modelled from the spec: encoding of a mode in the operating-mode
register (§4.1). -/
def modeBits : Mode → Nat
  | .SleepMode => 0
  | .StandbyMode => 1
  | .TransmitterMode => 3
  | .ReceiverMode => 4

/-- Modelled from the spec: decoding of the operating-mode register. -/
def decodeMode (v : Nat) : Mode :=
  if v = 1 then .StandbyMode
  else if v = 3 then .TransmitterMode
  else if v = 4 then .ReceiverMode
  else .SleepMode

/-- One hardware-interface operation, as recorded in the trace. -/
inductive Event
  | readReg (addr val : Nat)
  | writeReg (addr val : Nat)
  | writeBurst (addr : Nat) (data : List Nat)
  | awaitInterrupt (timeout : Int)
  | readRSSI (val : Int)
deriving DecidableEq, Repr

/-- The radio instance together with the chip-side receive FIFO queue and
the trace of hardware operations performed so far. -/
structure St where
  err : Bool
  mode : Mode
  txPacket : List Nat
  receiveBuffer : List Nat
  rxFifo : List Nat
  opCount : Nat
  events : List Event
deriving DecidableEq, Repr

/-- The hardware environment: the value produced by the n-th read of a
non-FIFO register, whether the n-th hardware operation fails (latching the
sticky error), and the RSSI reading. FIFO data reads pop the rx queue, and
the FifoNotEmpty status bit is tied to that queue being non-empty. -/
structure Env where
  regRead : Nat → Nat
  fails : Nat → Bool
  rssi : Int

/-- Outcome of an operation: normal return, fatal log.Panicf abort
(carrying the state at the abort), or fuel exhausted in an unbounded loop
(the call did not return). -/
inductive Outcome (α : Type)
  | ok : α → Outcome α
  | panicked : St → Outcome α
  | stuck : Outcome α
deriving DecidableEq, Repr

/-- Record one hardware operation: append it to the trace, advance the
operation counter, and latch the error if the environment fails it. -/
def hwStep (env : Env) (e : Event) (s : St) : St :=
  { s with
    opCount := s.opCount + 1
    events := s.events ++ [e]
    err := s.err || env.fails s.opCount }

/-- hw.ReadRegister. A FIFO read pops the rx queue; an IrqFlags2 read has
its FifoNotEmpty bit determined by the rx queue and the rest of its bits
by the oracle; other reads come straight from the oracle. -/
def readRegister (env : Env) (addr : Nat) (s : St) : Nat × St :=
  if addr = RegFifo then
    let v := s.rxFifo.headD 0
    (v, { hwStep env (.readReg addr v) s with rxFifo := s.rxFifo.tail })
  else
    let raw := env.regRead s.opCount % 256
    let v :=
      if addr = RegIrqFlags2 then
        (raw &&& (255 - FifoNotEmpty)) ||| (if s.rxFifo.isEmpty then 0 else FifoNotEmpty)
      else raw
    (v, hwStep env (.readReg addr v) s)

/-- hw.WriteRegister. -/
def writeRegister (env : Env) (addr val : Nat) (s : St) : St :=
  hwStep env (.writeReg addr val) s

/-- hw.WriteBurst. -/
def writeBurst (env : Env) (addr : Nat) (data : List Nat) (s : St) : St :=
  hwStep env (.writeBurst addr data) s

/-- hw.AwaitInterrupt. -/
def awaitInterrupt (env : Env) (timeout : Int) (s : St) : St :=
  hwStep env (.awaitInterrupt timeout) s

/-- Modelled from the spec: r.ReadRSSI() reads the signal-strength
register through the hardware interface (§6). -/
def readRSSI (env : Env) (s : St) : Int × St :=
  (env.rssi, hwStep env (.readRSSI env.rssi) s)

/-- Modelled from the spec: setMode (§4.1) drives the operating-mode
register (one hardware register operation) and records the target as the
instance's last-known mode; per §4.4 step 6 the recorded transition
happens regardless of latched errors. -/
def setMode (env : Env) (target : Mode) (s : St) : St :=
  let s := writeRegister env RegOpMode (modeBits target) s
  { s with mode := target }

/-- Modelled from the spec: r.mode() polls the chip's operating-mode
register (§4.3 step 4). -/
def readMode (env : Env) (s : St) : Mode × St :=
  let vs := readRegister env RegOpMode s
  (decodeMode vs.1, vs.2)

/-- r.fifoEmpty(): the FifoNotEmpty bit of IrqFlags2 is clear. -/
def fifoEmpty (env : Env) (s : St) : Bool × St :=
  let vs := readRegister env RegIrqFlags2 s
  (vs.1 &&& FifoNotEmpty == 0, vs.2)

/-- r.fifoThresholdExceeded(): the FifoLevel bit of IrqFlags2 is set. -/
def fifoThresholdExceeded (env : Env) (s : St) : Bool × St :=
  let vs := readRegister env RegIrqFlags2 s
  (decide (vs.1 &&& FifoLevel ≠ 0), vs.2)

/-- r.clearFIFO(): write FifoOverrun to IrqFlags2. -/
def clearFIFO (env : Env) (s : St) : St :=
  writeRegister env RegIrqFlags2 FifoOverrun s

/-- Go's copy(dst, src): overwrite a prefix of dst with min(len) bytes of
src, leaving the rest of dst unchanged. -/
def goCopy (dst src : List Nat) : List Nat :=
  src.take dst.length ++ dst.drop (min src.length dst.length)

/-- The inner pacing loop of transmit: poll IrqFlags2 until the FifoLevel
flag clears (then the next chunk size becomes fifoSize - fifoThreshold),
exiting early if the error latches. Returns the avail value the outer
loop continues with. -/
def pollNotThreshold (env : Env) : Nat → Nat → St → Outcome (Nat × St)
  | 0, _, _ => .stuck
  | fuel + 1, avail, s =>
    if s.err then .ok (avail, s)
    else
      let bs := fifoThresholdExceeded env s
      if !bs.1 then .ok (fifoSize - fifoThreshold, bs.2)
      else pollNotThreshold env fuel avail bs.2

/-- The outer chunking loop of transmit: burst at most avail bytes, then
pace via the threshold poll until all data is written or the error
latches. Returns the final avail value (passed to finishTX). -/
def transmitLoop (env : Env) : Nat → Nat → List Nat → St → Outcome (Nat × St)
  | 0, _, _, _ => .stuck
  | fuel + 1, avail, data, s =>
    if s.err then .ok (avail, s)
    else
      let avail := if avail > data.length then data.length else avail
      let s := writeBurst env RegFifo (data.take avail) s
      let data := data.drop avail
      if data.length = 0 then .ok (avail, s)
      else
        match pollNotThreshold env fuel avail s with
        | .ok (avail, s) => transmitLoop env fuel avail data s
        | .panicked s => .panicked s
        | .stuck => .stuck

/-- The completion wait of finishTX: poll the mode register until it
reports StandbyMode, exiting early if the error latches. This loop has
no iteration bound in the source; exhausting the fuel is `stuck`. -/
def finishTXLoop (env : Env) : Nat → St → Outcome St
  | 0, _ => .stuck
  | fuel + 1, s =>
    if s.err then .ok s
    else
      let ms := readMode env s
      if ms.1 = .StandbyMode then .ok ms.2
      else finishTXLoop env fuel ms.2

/-- r.finishTX(numBytes): sleep numBytes byte-durations (no observable
model effect), then wait for the automatic return to standby. -/
def finishTX (env : Env) (fuel : Nat) (numBytes : Nat) (s : St) : Outcome St :=
  let _ := numBytes
  finishTXLoop env fuel s

/-- The hand-off from the chunking loop to finishTX: the avail value the
loop ended with becomes finishTX's numBytes argument. -/
def finishOut (env : Env) (fuel : Nat) (out : Outcome (Nat × St)) : Outcome St :=
  match out with
  | .ok (avail, s) => finishTX env fuel avail s
  | .panicked s => .panicked s
  | .stuck => .stuck

/-- r.transmit(data): the chunked FIFO write followed by the completion
wait. -/
def transmit (env : Env) (fuel : Nat) (data : List Nat) (s : St) : Outcome St :=
  finishOut env fuel (transmitLoop env fuel fifoSize data s)

/-- r.Send(data): raw framing. Terminates the packet with a zero byte in
txPacket, prepares auto-transmit, streams the framed packet, and forces
StandbyMode at the end. -/
def Send (env : Env) (fuel : Nat) (data : List Nat) (s : St) : Outcome St :=
  if s.err then .ok s
  else if data.length > maxPacketSize then .panicked s
  else
    let tx := goCopy s.txPacket data
    let tx := tx.set data.length 0
    let s := { s with txPacket := tx }
    let packet := tx.take (data.length + 1)
    let s := clearFIFO env s
    let s := setMode env .StandbyMode s
    let s := writeRegister env RegAutoModes
      (EnterConditionFifoNotEmpty ||| ExitConditionFifoEmpty ||| IntermediateModeTx) s
    match transmit env fuel packet s with
    | .ok s => .ok (setMode env .StandbyMode s)
    | .panicked s => .panicked s
    | .stuck => .stuck

/-- r.SendRadioHead(data, to, from, id, flags): headered framing. Writes
the five header bytes into txPacket, then performs copy(txPacket[:5],
data) and transmits the whole txPacket slice, exactly as the source does. -/
def SendRadioHead (env : Env) (fuel : Nat) (data : List Nat)
    (dTo dFrom dId dFlags : Nat) (s : St) : Outcome St :=
  if s.err then .ok s
  else if data.length > maxPacketSize then .panicked s
  else
    let tx := s.txPacket
    let tx := tx.set 0 ((data.length % 256 + 4) % 256)
    let tx := tx.set 1 dTo
    let tx := tx.set 2 dFrom
    let tx := tx.set 3 dId
    let tx := tx.set 4 dFlags
    let tx := goCopy (tx.take 5) data ++ tx.drop 5
    let s := { s with txPacket := tx }
    let s := clearFIFO env s
    let s := setMode env .StandbyMode s
    let s := writeRegister env RegAutoModes
      (EnterConditionFifoNotEmpty ||| ExitConditionFifoEmpty ||| IntermediateModeTx) s
    match transmit env fuel tx s with
    | .ok s => .ok (setMode env .StandbyMode s)
    | .panicked s => .panicked s
    | .stuck => .stuck

/-- r.finishRX(rssi): force StandbyMode, then drain the accumulator into
a fresh packet. bytes.Buffer.Read on a non-empty buffer consumes its
contents and returns a nil error (so r.err is assigned nil), after which
Reset leaves the accumulator empty. -/
def finishRX (env : Env) (rssi : Int) (s : St) : Option (List Nat) × Int × St :=
  let s := setMode env .StandbyMode s
  let size := s.receiveBuffer.length
  if size = 0 then (none, rssi, s)
  else
    let p := s.receiveBuffer
    let s := { s with err := false, receiveBuffer := [] }
    (some p, rssi, s)

/-- The polling loop of the raw Receive: drain FIFO bytes into the
accumulator until a zero byte ends the packet, the timeout budget runs
out with an empty FIFO, or the error latches. bytes.Buffer.WriteByte
always returns a nil error, so the r.err assignment there never sets the
latch. -/
def receiveLoop (env : Env) : Nat → Int → Int → St → Outcome (Option (List Nat) × Int × St)
  | 0, _, _, _ => .stuck
  | fuel + 1, timeout, rssi, s =>
    if s.err then .ok (none, rssi, s)
    else
      let es := fifoEmpty env s
      if es.1 then
        if timeout ≤ 0 then .ok (none, rssi, es.2)
        else receiveLoop env fuel (timeout - byteDuration) rssi es.2
      else
        let cs := readRegister env RegFifo es.2
        if cs.2.err then .ok (none, rssi, cs.2)
        else if cs.1 = 0 then .ok (finishRX env rssi cs.2)
        else receiveLoop env fuel timeout rssi
          { cs.2 with receiveBuffer := cs.2.receiveBuffer ++ [cs.1] }

/-- The polling loop of ReceiveRadioHead: the first FIFO byte is the
length; subsequent bytes accumulate until the accumulator holds exactly
length bytes. length = -1 marks the length byte as not yet read. -/
def receiveRHLoop (env : Env) : Nat → Int → Int → Int → St → Outcome (Option (List Nat) × Int × St)
  | 0, _, _, _, _ => .stuck
  | fuel + 1, timeout, rssi, length, s =>
    if s.err then .ok (none, rssi, s)
    else
      let es := fifoEmpty env s
      if es.1 then
        if timeout ≤ 0 then .ok (none, rssi, es.2)
        else receiveRHLoop env fuel (timeout - byteDuration) rssi length es.2
      else
        let cs := readRegister env RegFifo es.2
        if cs.2.err then .ok (none, rssi, cs.2)
        else if length = -1 then receiveRHLoop env fuel timeout rssi (Int.ofNat cs.1) cs.2
        else
          let s := { cs.2 with receiveBuffer := cs.2.receiveBuffer ++ [cs.1] }
          if (s.receiveBuffer.length : Int) = length then .ok (finishRX env rssi s)
          else receiveRHLoop env fuel timeout rssi length s

/-- The deferred r.setMode(SleepMode) installed by Receive and
ReceiveRadioHead right after arming ReceiverMode: it runs on every exit
of the remaining body, normal return and panic unwind alike. -/
def deferSleep (env : Env) (out : Outcome (Option (List Nat) × Int × St)) :
    Outcome (Option (List Nat) × Int × St) :=
  match out with
  | .ok (p, rssi, s) => .ok (p, rssi, setMode env .SleepMode s)
  | .panicked s => .panicked (setMode env .SleepMode s)
  | .stuck => .stuck

/-- r.Receive(timeout): raw framing. The deferred setMode(SleepMode)
applies to every return after the latch check. -/
def Receive (env : Env) (fuel : Nat) (timeout : Int) (s : St) :
    Outcome (Option (List Nat) × Int × St) :=
  if s.err then .ok (none, 0, s)
  else
    let s := writeRegister env RegAutoModes 0 s
    let s := setMode env .ReceiverMode s
    let s := awaitInterrupt env timeout s
    let rs := readRSSI env s
    deferSleep env (receiveLoop env fuel timeout rs.1 rs.2)

/-- r.ReceiveRadioHead(timeout): headered framing. The deferred
setMode(SleepMode) applies to every return after the latch check. -/
def ReceiveRadioHead (env : Env) (fuel : Nat) (timeout : Int) (s : St) :
    Outcome (Option (List Nat) × Int × St) :=
  if s.err then .ok (none, 0, s)
  else
    let s := writeRegister env RegAutoModes 0 s
    let s := setMode env .ReceiverMode s
    let s := awaitInterrupt env timeout s
    let rs := readRSSI env s
    deferSleep env (receiveRHLoop env fuel timeout rs.1 (-1) rs.2)

/-- r.SendAndReceive(data, timeout): a Send followed, when the latch is
still clear, by a Receive. -/
def SendAndReceive (env : Env) (fuel : Nat) (data : List Nat) (timeout : Int) (s : St) :
    Outcome (Option (List Nat) × Int × St) :=
  match Send env fuel data s with
  | .ok s => if s.err then .ok (none, 0, s) else Receive env fuel timeout s
  | .panicked s => .panicked s
  | .stuck => .stuck

/-- The burst writes to the FIFO data register, in order, extracted from
a trace. -/
def fifoWrites : List Event → List (List Nat)
  | [] => []
  | .writeBurst a d :: es => if a = RegFifo then d :: fifoWrites es else fifoWrites es
  | _ :: es => fifoWrites es

/-- A fresh instance: clear latch, SleepMode, zeroed transmit buffer of
115 bytes (modelled from the spec §3: fixed capacity for a 110-byte
payload plus up to 5 header/terminator bytes), empty accumulator, and the
given chip-side FIFO contents. -/
def initSt (rxFifo : List Nat) : St :=
  { err := false
    mode := .SleepMode
    txPacket := List.replicate 115 0
    receiveBuffer := []
    rxFifo := rxFifo
    opCount := 0
    events := [] }

/-- A cooperative hardware environment: no operation fails, every
non-FIFO register read returns 1 (StandbyMode in the mode register; the
FifoLevel flag clear in IrqFlags2). -/
def coopEnv : Env :=
  { regRead := fun _ => 1
    fails := fun _ => false
    rssi := -42 }

/-- A stuck chip: no operation fails, but the mode register forever
reports TransmitterMode (encoding 3; the FifoLevel flag is still clear
in IrqFlags2 reads, so pacing completes). -/
def stuckEnv : Env :=
  { regRead := fun _ => 3
    fails := fun _ => false
    rssi := 0 }

/-- Property of a transmit-shaped outcome, holding vacuously when the
call did not return normally. -/
def txOutcomeProp (out : Outcome St) (P : St → Prop) : Prop :=
  match out with
  | .ok s => P s
  | _ => True

/-- Property of a receive-shaped outcome, holding vacuously when the
call did not return normally. -/
def rxOutcomeProp (out : Outcome (Option (List Nat) × Int × St))
    (P : Option (List Nat) → Int → St → Prop) : Prop :=
  match out with
  | .ok (p, r, s) => P p r s
  | _ => True

/-- The accumulator is empty in any outcome that delivered a packet. -/
def clearedOnDelivery (out : Outcome (Option (List Nat) × Int × St)) : Prop :=
  match out with
  | .ok (some _, _, s) => s.receiveBuffer = []
  | _ => True

/-- No packet is delivered in the outcome. -/
def neverDelivered (out : Outcome (Option (List Nat) × Int × St)) : Prop :=
  match out with
  | .ok (p, _, _) => p = none
  | _ => True

end Rfm69

namespace Rfm69

@[simp] theorem hwStep_err (env : Env) (e : Event) (s : St) :
    (hwStep env e s).err = (s.err || env.fails s.opCount) := rfl

@[simp] theorem hwStep_mode (env : Env) (e : Event) (s : St) :
    (hwStep env e s).mode = s.mode := rfl

@[simp] theorem hwStep_rxFifo (env : Env) (e : Event) (s : St) :
    (hwStep env e s).rxFifo = s.rxFifo := rfl

@[simp] theorem hwStep_receiveBuffer (env : Env) (e : Event) (s : St) :
    (hwStep env e s).receiveBuffer = s.receiveBuffer := rfl

@[simp] theorem hwStep_txPacket (env : Env) (e : Event) (s : St) :
    (hwStep env e s).txPacket = s.txPacket := rfl

@[simp] theorem hwStep_events (env : Env) (e : Event) (s : St) :
    (hwStep env e s).events = s.events ++ [e] := rfl

@[simp] theorem setMode_mode (env : Env) (m : Mode) (s : St) :
    (setMode env m s).mode = m := rfl

theorem fifoWrites_append (es1 es2 : List Event) :
    fifoWrites (es1 ++ es2) = fifoWrites es1 ++ fifoWrites es2 := by
  induction es1 with
  | nil => rfl
  | cons e es ih =>
    cases e with
    | writeBurst a d =>
      simp only [List.cons_append, fifoWrites, ih]
      split
      · simp [ih]
      · exact ih
    | readReg a v => simp [fifoWrites, ih]
    | writeReg a v => simp [fifoWrites, ih]
    | awaitInterrupt t => simp [fifoWrites, ih]
    | readRSSI v => simp [fifoWrites, ih]

end Rfm69

namespace Rfm69

set_option maxRecDepth 400000 in
/-- C1: the claim says SendRadioHead on a clear-latch instance writes to
the FIFO exactly [len+4, to, from, id, flags] ++ payload. The code
instead performs copy(txPacket[:5], data), overwriting the header bytes
with the start of the payload, and then bursts the entire fixed 115-byte
txPacket: at payload [0xAA, 0xBB] with to=2, from=1, id=5, flags=0 the
FIFO receives [0xAA, 0xBB, 1, 5, 0] followed by 110 zero bytes, not
[6, 2, 1, 5, 0, 0xAA, 0xBB]. -/
theorem C1_code_bug_eval :
    (match SendRadioHead coopEnv 50 [0xAA, 0xBB] 2 1 5 0 (initSt []) with
     | .ok s => (fifoWrites s.events).flatten
     | _ => []) = [0xAA, 0xBB, 1, 5, 0] ++ List.replicate 110 0 ∧
    [0xAA, 0xBB, 1, 5, 0] ++ List.replicate 110 0 ≠ [6, 2, 1, 5, 0, 0xAA, 0xBB] := by
  constructor
  · decide
  · decide

set_option maxRecDepth 400000 in
/-- C2: the claim says feeding the bytes produced by sendHeadered back
through the headered receive delimiter reconstructs [to, from, id, flags]
++ payload. Because SendRadioHead emits a corrupted frame (see C1), the
delimiter reads the first payload byte 0xAA = 170 as the length, can
collect only 114 further bytes, and times out delivering no packet at
all: the round trip yields nil, not [2, 1, 5, 0, 0xAA, 0xBB]. -/
theorem C2_code_bug_eval :
    (match SendRadioHead coopEnv 50 [0xAA, 0xBB] 2 1 5 0 (initSt []) with
     | .ok s =>
       match ReceiveRadioHead coopEnv 200 0 (initSt (fifoWrites s.events).flatten) with
       | .ok (p, _, _) => p
       | _ => some [99]
     | _ => some [98]) = none ∧
    (none : Option (List Nat)) ≠ some [2, 1, 5, 0, 0xAA, 0xBB] := by
  constructor
  · decide
  · decide

set_option maxRecDepth 40000 in
/-- C4 counterexample: a receive that accumulates a byte and then runs
out of timeout budget returns with the accumulator still holding the
partial packet, refuting the claim that the accumulator is empty after
every receive return. Concretely, with one nonzero byte 5 in the FIFO and
timeout 0, Receive returns nil yet receiveBuffer = [5]. -/
theorem C4_counterexample :
    (match Receive coopEnv 10 0 (initSt [5]) with
     | .ok (_, _, s) => s.receiveBuffer
     | _ => []) ≠ [] := by
  decide

/-- C9: a payload longer than maxPacketSize = 110 bytes passed to Send or
SendRadioHead on a clear-latch instance takes the fatal log.Panicf path
with the state unchanged (so no hardware operation has been recorded),
and never returns normally. -/
theorem C9_oversize_panics (env : Env) (fuel : Nat) (data : List Nat)
    (dTo dFrom dId dFlags : Nat) (s : St)
    (hs : s.err = false) (hlen : data.length > maxPacketSize) :
    Send env fuel data s = .panicked s ∧
    SendRadioHead env fuel data dTo dFrom dId dFlags s = .panicked s := by
  constructor
  · simp [Send, hs, hlen]
  · simp [SendRadioHead, hs, hlen]

/-- C9 witness: a 111-byte payload panics on a fresh instance. -/
theorem C9_oversize_panics_witness :
    (initSt []).err = false ∧ (List.replicate 111 1).length > maxPacketSize ∧
    (Send coopEnv 5 (List.replicate 111 1) (initSt []) = .panicked (initSt []) ∧
     SendRadioHead coopEnv 5 (List.replicate 111 1) 2 1 5 0 (initSt []) = .panicked (initSt [])) :=
  ⟨by decide, by decide,
   C9_oversize_panics coopEnv 5 (List.replicate 111 1) 2 1 5 0 (initSt []) (by decide) (by decide)⟩

/-- C6: every public operation invoked on an instance whose error latch
is already set returns immediately with the state unchanged (hence with
no hardware operation recorded) and an empty/zero result: .ok s for the
sends, nil packet and RSSI 0 for the receive-shaped operations. -/
theorem C6_latched_inert (env : Env) (fuel : Nat) (data : List Nat)
    (dTo dFrom dId dFlags : Nat) (timeout : Int) (s : St) (hs : s.err = true) :
    Send env fuel data s = .ok s ∧
    SendRadioHead env fuel data dTo dFrom dId dFlags s = .ok s ∧
    Receive env fuel timeout s = .ok (none, 0, s) ∧
    ReceiveRadioHead env fuel timeout s = .ok (none, 0, s) ∧
    SendAndReceive env fuel data timeout s = .ok (none, 0, s) := by
  refine ⟨by simp [Send, hs], by simp [SendRadioHead, hs],
    by simp [Receive, hs], by simp [ReceiveRadioHead, hs], ?_⟩
  simp [SendAndReceive, Send, hs]

/-- C6 witness: a latched instance is inert for all five operations. -/
theorem C6_latched_inert_witness :
    ({ initSt [] with err := true } : St).err = true ∧
    (Send coopEnv 5 [1] { initSt [] with err := true } = .ok { initSt [] with err := true } ∧
     SendRadioHead coopEnv 5 [1] 2 1 5 0 { initSt [] with err := true } =
       .ok { initSt [] with err := true } ∧
     Receive coopEnv 5 0 { initSt [] with err := true } =
       .ok (none, 0, { initSt [] with err := true }) ∧
     ReceiveRadioHead coopEnv 5 0 { initSt [] with err := true } =
       .ok (none, 0, { initSt [] with err := true }) ∧
     SendAndReceive coopEnv 5 [1] 0 { initSt [] with err := true } =
       .ok (none, 0, { initSt [] with err := true })) :=
  ⟨rfl, C6_latched_inert coopEnv 5 [1] 2 1 5 0 0 { initSt [] with err := true } rfl⟩

end Rfm69

namespace Rfm69

theorem and191_and64 (a : Nat) : a &&& 191 &&& 64 = 0 := by
  apply Nat.eq_of_testBit_eq
  intro i
  simp only [Nat.testBit_and, Nat.zero_testBit]
  cases h : Nat.testBit 64 i with
  | false => simp [h]
  | true =>
    have hi : i = 6 := by
      rw [show (64 : Nat) = 2 ^ 6 by norm_num, Nat.testBit_two_pow] at h
      exact (of_decide_eq_true h).symm
    subst hi
    have h191 : Nat.testBit 191 6 = false := by decide
    simp [h191]

theorem or64_and64 (a : Nat) : (a ||| 64) &&& 64 = 64 := by
  apply Nat.eq_of_testBit_eq
  intro i
  simp only [Nat.testBit_and, Nat.testBit_or]
  cases h : Nat.testBit 64 i <;> simp [h]

/-- The emptiness answer of fifoEmpty is exactly whether the modelled
chip FIFO queue is empty, whatever the oracle returns for the other
status bits. -/
@[simp] theorem fifoEmpty_fst (env : Env) (s : St) :
    (fifoEmpty env s).1 = s.rxFifo.isEmpty := by
  unfold fifoEmpty readRegister
  simp only [RegIrqFlags2, RegFifo, FifoNotEmpty]
  norm_num
  cases hr : s.rxFifo with
  | nil => simp [hr, and191_and64]
  | cons a l => simp [hr, or64_and64]

@[simp] theorem fifoEmpty_snd_err (env : Env) (s : St) :
    (fifoEmpty env s).2.err = (s.err || env.fails s.opCount) := by
  unfold fifoEmpty readRegister
  norm_num [RegIrqFlags2, RegFifo]

@[simp] theorem fifoEmpty_snd_rxFifo (env : Env) (s : St) :
    (fifoEmpty env s).2.rxFifo = s.rxFifo := by
  unfold fifoEmpty readRegister
  norm_num [RegIrqFlags2, RegFifo]

@[simp] theorem fifoEmpty_snd_receiveBuffer (env : Env) (s : St) :
    (fifoEmpty env s).2.receiveBuffer = s.receiveBuffer := by
  unfold fifoEmpty readRegister
  norm_num [RegIrqFlags2, RegFifo]

@[simp] theorem fifoEmpty_snd_mode (env : Env) (s : St) :
    (fifoEmpty env s).2.mode = s.mode := by
  unfold fifoEmpty readRegister
  norm_num [RegIrqFlags2, RegFifo]

@[simp] theorem readRegister_fifo_fst (env : Env) (s : St) :
    (readRegister env RegFifo s).1 = s.rxFifo.headD 0 := by
  unfold readRegister
  norm_num

@[simp] theorem readRegister_fifo_snd_err (env : Env) (s : St) :
    (readRegister env RegFifo s).2.err = (s.err || env.fails s.opCount) := by
  unfold readRegister
  norm_num

@[simp] theorem readRegister_fifo_snd_rxFifo (env : Env) (s : St) :
    (readRegister env RegFifo s).2.rxFifo = s.rxFifo.tail := by
  unfold readRegister
  norm_num

@[simp] theorem readRegister_fifo_snd_receiveBuffer (env : Env) (s : St) :
    (readRegister env RegFifo s).2.receiveBuffer = s.receiveBuffer := by
  unfold readRegister
  norm_num

@[simp] theorem readRegister_fifo_snd_mode (env : Env) (s : St) :
    (readRegister env RegFifo s).2.mode = s.mode := by
  unfold readRegister
  norm_num

@[simp] theorem setMode_err (env : Env) (m : Mode) (s : St) :
    (setMode env m s).err = (s.err || env.fails s.opCount) := rfl

@[simp] theorem setMode_rxFifo (env : Env) (m : Mode) (s : St) :
    (setMode env m s).rxFifo = s.rxFifo := rfl

@[simp] theorem setMode_receiveBuffer (env : Env) (m : Mode) (s : St) :
    (setMode env m s).receiveBuffer = s.receiveBuffer := rfl

@[simp] theorem setMode_txPacket (env : Env) (m : Mode) (s : St) :
    (setMode env m s).txPacket = s.txPacket := rfl

@[simp] theorem setMode_events (env : Env) (m : Mode) (s : St) :
    (setMode env m s).events = s.events ++ [.writeReg RegOpMode (modeBits m)] := rfl

@[simp] theorem readRSSI_fst (env : Env) (s : St) : (readRSSI env s).1 = env.rssi := rfl

@[simp] theorem readRSSI_snd (env : Env) (s : St) :
    (readRSSI env s).2 = hwStep env (.readRSSI env.rssi) s := rfl

end Rfm69

namespace Rfm69

@[simp] theorem txOutcomeProp_ok (s : St) (P : St → Prop) :
    txOutcomeProp (.ok s) P = P s := rfl

@[simp] theorem txOutcomeProp_panicked (s : St) (P : St → Prop) :
    txOutcomeProp (.panicked s) P = True := rfl

@[simp] theorem txOutcomeProp_stuck (P : St → Prop) :
    txOutcomeProp (.stuck : Outcome St) P = True := rfl

@[simp] theorem rxOutcomeProp_ok (p : Option (List Nat)) (r : Int) (s : St)
    (P : Option (List Nat) → Int → St → Prop) :
    rxOutcomeProp (.ok (p, r, s)) P = P p r s := rfl

@[simp] theorem rxOutcomeProp_panicked (s : St)
    (P : Option (List Nat) → Int → St → Prop) :
    rxOutcomeProp (.panicked s) P = True := rfl

@[simp] theorem rxOutcomeProp_stuck (P : Option (List Nat) → Int → St → Prop) :
    rxOutcomeProp (.stuck : Outcome (Option (List Nat) × Int × St)) P = True := rfl

theorem deferSleep_mode (env : Env) (out : Outcome (Option (List Nat) × Int × St)) :
    rxOutcomeProp (deferSleep env out) (fun _ _ s1 => s1.mode = .SleepMode) := by
  rcases out with ⟨p, r, s⟩ | s | _ <;> simp [deferSleep]

/-- C5: whenever Send, SendRadioHead, Receive or ReceiveRadioHead is
called on an instance with a clear error latch and returns (success,
timeout, or with an error latched mid-operation), the instance's mode is
StandbyMode after a send and SleepMode after a receive; panicking or
never returning leaves nothing to show. -/
theorem C5_mode_after_calls (env : Env) (fuel : Nat) (data : List Nat)
    (dTo dFrom dId dFlags : Nat) (timeout : Int) (s : St) (hs : s.err = false) :
    txOutcomeProp (Send env fuel data s) (fun s1 => s1.mode = .StandbyMode) ∧
    txOutcomeProp (SendRadioHead env fuel data dTo dFrom dId dFlags s)
      (fun s1 => s1.mode = .StandbyMode) ∧
    rxOutcomeProp (Receive env fuel timeout s) (fun _ _ s1 => s1.mode = .SleepMode) ∧
    rxOutcomeProp (ReceiveRadioHead env fuel timeout s)
      (fun _ _ s1 => s1.mode = .SleepMode) := by
  refine ⟨?_, ?_, ?_, ?_⟩
  · unfold Send
    simp only [hs, Bool.false_eq_true, if_false]
    split
    · simp
    · split <;> simp
  · unfold SendRadioHead
    simp only [hs, Bool.false_eq_true, if_false]
    split
    · simp
    · split <;> simp
  · unfold Receive
    simp only [hs, Bool.false_eq_true, if_false]
    exact deferSleep_mode env _
  · unfold ReceiveRadioHead
    simp only [hs, Bool.false_eq_true, if_false]
    exact deferSleep_mode env _

/-- C5 witness: the invariant instantiated on a fresh instance. -/
theorem C5_mode_after_calls_witness :
    (initSt []).err = false ∧
    (txOutcomeProp (Send coopEnv 10 [1] (initSt [])) (fun s1 => s1.mode = .StandbyMode) ∧
     txOutcomeProp (SendRadioHead coopEnv 10 [1] 2 1 5 0 (initSt []))
       (fun s1 => s1.mode = .StandbyMode) ∧
     rxOutcomeProp (Receive coopEnv 10 0 (initSt [])) (fun _ _ s1 => s1.mode = .SleepMode) ∧
     rxOutcomeProp (ReceiveRadioHead coopEnv 10 0 (initSt []))
       (fun _ _ s1 => s1.mode = .SleepMode)) :=
  ⟨rfl, C5_mode_after_calls coopEnv 10 [1] 2 1 5 0 0 (initSt []) rfl⟩

end Rfm69

namespace Rfm69

@[simp] theorem clearedOnDelivery_ok_none (r : Int) (s : St) :
    clearedOnDelivery (.ok (none, r, s)) = True := rfl

@[simp] theorem clearedOnDelivery_ok_some (p : List Nat) (r : Int) (s : St) :
    clearedOnDelivery (.ok (some p, r, s)) = (s.receiveBuffer = []) := rfl

@[simp] theorem clearedOnDelivery_panicked (s : St) :
    clearedOnDelivery (.panicked s) = True := rfl

@[simp] theorem clearedOnDelivery_stuck :
    clearedOnDelivery (.stuck : Outcome (Option (List Nat) × Int × St)) = True := rfl

theorem finishRX_cleared (env : Env) (rssi : Int) (s : St) :
    clearedOnDelivery (.ok (finishRX env rssi s)) := by
  unfold finishRX
  by_cases hb : s.receiveBuffer = []
  · simp [hb]
  · simp [hb]

theorem deferSleep_cleared (env : Env) (out : Outcome (Option (List Nat) × Int × St))
    (h : clearedOnDelivery out) : clearedOnDelivery (deferSleep env out) := by
  rcases out with ⟨p, r, s⟩ | s | _
  · cases p <;> simp_all [deferSleep]
  · simp [deferSleep]
  · simp [deferSleep]

theorem receiveLoop_cleared (env : Env) :
    ∀ (fuel : Nat) (timeout rssi : Int) (s : St),
      clearedOnDelivery (receiveLoop env fuel timeout rssi s) := by
  intro fuel
  induction fuel with
  | zero => intro timeout rssi s; simp [receiveLoop]
  | succ fuel ih =>
    intro timeout rssi s
    simp only [receiveLoop]
    split
    · simp
    · split
      · split
        · simp
        · exact ih _ _ _
      · split
        · simp
        · split
          · exact finishRX_cleared env rssi _
          · exact ih _ _ _

theorem receiveRHLoop_cleared (env : Env) :
    ∀ (fuel : Nat) (timeout rssi length : Int) (s : St),
      clearedOnDelivery (receiveRHLoop env fuel timeout rssi length s) := by
  intro fuel
  induction fuel with
  | zero => intro timeout rssi length s; simp [receiveRHLoop]
  | succ fuel ih =>
    intro timeout rssi length s
    simp only [receiveRHLoop]
    split
    · simp
    · split
      · split
        · simp
        · exact ih _ _ _ _
      · split
        · simp
        · split
          · exact ih _ _ _ _
          · split
            · exact finishRX_cleared env rssi _
            · exact ih _ _ _ _

/-- C4 (amended): whenever a receive operation returns with a delivered
packet, the accumulator is empty; a receive that returns without a packet
(timeout with budget exhausted, or a latched register error) may leave
partially accumulated bytes behind — see the counterexample. -/
theorem C4_amended_cleared_on_delivery (env : Env) (fuel : Nat) (timeout : Int) (s : St) :
    clearedOnDelivery (Receive env fuel timeout s) ∧
    clearedOnDelivery (ReceiveRadioHead env fuel timeout s) := by
  constructor
  · unfold Receive
    split
    · simp
    · exact deferSleep_cleared env _ (receiveLoop_cleared env fuel _ _ _)
  · unfold ReceiveRadioHead
    split
    · simp
    · exact deferSleep_cleared env _ (receiveRHLoop_cleared env fuel _ _ _ _)

end Rfm69

namespace Rfm69

@[simp] theorem neverDelivered_ok (p : Option (List Nat)) (r : Int) (s : St) :
    neverDelivered (.ok (p, r, s)) = (p = none) := rfl

@[simp] theorem neverDelivered_panicked (s : St) :
    neverDelivered (.panicked s) = True := rfl

@[simp] theorem neverDelivered_stuck :
    neverDelivered (.stuck : Outcome (Option (List Nat) × Int × St)) = True := rfl

theorem deferSleep_never (env : Env) (out : Outcome (Option (List Nat) × Int × St))
    (h : neverDelivered out) : neverDelivered (deferSleep env out) := by
  rcases out with ⟨p, r, s⟩ | s | _ <;> simp_all [deferSleep]

/-- Once the headered delimiter's target length is 0, the completion
check compares the accumulator's size, which is at least 1 after every
write, against 0, so the loop can never deliver a packet. -/
theorem receiveRHLoop_zero_never (env : Env) :
    ∀ (fuel : Nat) (timeout rssi : Int) (s : St),
      neverDelivered (receiveRHLoop env fuel timeout rssi 0 s) := by
  intro fuel
  induction fuel with
  | zero => intro t r s; simp [receiveRHLoop]
  | succ fuel ih =>
    intro t r s
    simp only [receiveRHLoop]
    split
    · simp
    · split
      · split
        · simp
        · exact ih _ _ _
      · split
        · simp
        · split
          · rename_i hneg
            exact absurd hneg (by decide)
          · split
            · rename_i hlen
              exfalso
              simp only [List.length_append, List.length_singleton] at hlen
              omega
            · exact ih _ _ _

/-- A headered receive whose first FIFO byte is 0 sets the delimiter
target to 0 and therefore never delivers. -/
theorem receiveRHLoop_start_never (env : Env) (fuel : Nat) (timeout rssi : Int)
    (s : St) (rest : List Nat) (hfifo : s.rxFifo = 0 :: rest) :
    neverDelivered (receiveRHLoop env fuel timeout rssi (-1) s) := by
  cases fuel with
  | zero => simp [receiveRHLoop]
  | succ fuel =>
    simp only [receiveRHLoop]
    split
    · simp
    · simp only [fifoEmpty_fst, hfifo, List.isEmpty_cons, Bool.false_eq_true, if_false,
        readRegister_fifo_fst, fifoEmpty_snd_rxFifo, List.headD_cons, if_true]
      split
      · simp
      · exact receiveRHLoop_zero_never env fuel _ _ _

/-- C10: in ReceiveRadioHead, if the first byte read from the FIFO (the
length byte) is 0, the delimiter can never complete — the accumulator's
size is compared to the target only after a byte is written, so it is
always at least 1 — and any normal return delivers no packet. -/
theorem C10_zero_length_never_delivered (env : Env) (fuel : Nat) (timeout : Int)
    (s : St) (rest : List Nat) (hfifo : s.rxFifo = 0 :: rest) :
    neverDelivered (ReceiveRadioHead env fuel timeout s) := by
  unfold ReceiveRadioHead
  split
  · simp
  · apply deferSleep_never
    apply receiveRHLoop_start_never env fuel timeout _ _ rest
    simp [readRSSI_snd, awaitInterrupt, writeRegister, hfifo]

/-- C10 witness: a FIFO stream starting with a 0 length byte yields no
packet on a fresh instance. -/
theorem C10_zero_length_never_delivered_witness :
    (initSt [0, 5, 6]).rxFifo = 0 :: [5, 6] ∧
    neverDelivered (ReceiveRadioHead coopEnv 20 0 (initSt [0, 5, 6])) :=
  ⟨rfl, C10_zero_length_never_delivered coopEnv 20 0 (initSt [0, 5, 6]) [5, 6] rfl⟩

end Rfm69

namespace Rfm69

theorem pollNotThreshold_succ (env : Env) (fuel avail : Nat) (s : St) :
    pollNotThreshold env (fuel + 1) avail s =
      if s.err then .ok (avail, s)
      else
        let bs := fifoThresholdExceeded env s
        if !bs.1 then .ok (fifoSize - fifoThreshold, bs.2)
        else pollNotThreshold env fuel avail bs.2 := rfl

theorem transmitLoop_succ (env : Env) (fuel avail : Nat) (d : List Nat) (s : St) :
    transmitLoop env (fuel + 1) avail d s =
      if s.err then .ok (avail, s)
      else
        let a2 := if avail > d.length then d.length else avail
        let s2 := writeBurst env RegFifo (d.take a2) s
        let d2 := d.drop a2
        if d2.length = 0 then .ok (a2, s2)
        else
          match pollNotThreshold env fuel a2 s2 with
          | .ok (a3, s3) => transmitLoop env fuel a3 d2 s3
          | .panicked s3 => .panicked s3
          | .stuck => .stuck := rfl

theorem finishTXLoop_succ (env : Env) (fuel : Nat) (s : St) :
    finishTXLoop env (fuel + 1) s =
      if s.err then .ok s
      else
        let ms := readMode env s
        if ms.1 = .StandbyMode then .ok ms.2
        else finishTXLoop env fuel ms.2 := rfl

@[simp] theorem readMode_fst_stuck (s : St) :
    (readMode stuckEnv s).1 = .TransmitterMode := by
  unfold readMode readRegister
  norm_num [RegOpMode, RegFifo, RegIrqFlags2, stuckEnv, decodeMode]

@[simp] theorem readMode_fst_coop (s : St) :
    (readMode coopEnv s).1 = .StandbyMode := by
  unfold readMode readRegister
  norm_num [RegOpMode, RegFifo, RegIrqFlags2, coopEnv, decodeMode]

@[simp] theorem readMode_snd_err (env : Env) (s : St) :
    (readMode env s).2.err = (s.err || env.fails s.opCount) := by
  unfold readMode readRegister
  norm_num [RegOpMode, RegFifo]

/-- The poll in finishTX of a chip that forever reports TransmitterMode
never exits: every fuel budget is exhausted. -/
theorem finishTXLoop_stuckEnv (fuel : Nat) (s : St) (hs : s.err = false) :
    finishTXLoop stuckEnv fuel s = .stuck := by
  induction fuel generalizing s with
  | zero => rfl
  | succ fuel ih =>
    rw [finishTXLoop_succ, if_neg (by simp [hs])]
    simp only [readMode_fst_stuck]
    rw [if_neg (by simp)]
    exact ih _ (by simp [hs, stuckEnv])

theorem transmitLoop_once (env : Env) (fuel avail : Nat) (d : List Nat) (s : St)
    (hs : s.err = false) (_h1 : 0 < d.length) (h2 : d.length ≤ avail) :
    transmitLoop env (fuel + 1) avail d s = .ok (d.length, writeBurst env RegFifo d s) := by
  rw [transmitLoop_succ, if_neg (by simp [hs])]
  have havail : (if avail > d.length then d.length else avail) = d.length := by
    by_cases h : avail > d.length
    · simp [h]
    · simp only [h, if_false]
      omega
  simp only [havail, List.take_length, List.drop_length, List.length_nil, if_pos rfl]
  simp

/-- transmit on a stuck chip never returns whenever the packet fits in
one chunk: the chunk is written and finishTX then spins forever. -/
theorem transmit_stuck (fuel : Nat) (d : List Nat) (s : St) (hs : s.err = false)
    (h1 : 0 < d.length) (h2 : d.length ≤ 66) :
    transmit stuckEnv fuel d s = .stuck := by
  cases fuel with
  | zero => rfl
  | succ fuel =>
    unfold transmit
    rw [transmitLoop_once stuckEnv fuel fifoSize d s hs h1 (by simpa [fifoSize] using h2)]
    exact finishTXLoop_stuckEnv (fuel + 1) _ (by simp [writeBurst, hs, stuckEnv])

theorem Send_unfold (env : Env) (fuel : Nat) (data : List Nat) (s : St)
    (hs : s.err = false) (hlen : ¬data.length > maxPacketSize) :
    Send env fuel data s =
      match transmit env fuel
          (((goCopy s.txPacket data).set data.length 0).take (data.length + 1))
          (writeRegister env RegAutoModes
            (EnterConditionFifoNotEmpty ||| ExitConditionFifoEmpty ||| IntermediateModeTx)
            (setMode env .StandbyMode
              (clearFIFO env { s with txPacket := (goCopy s.txPacket data).set data.length 0 }))) with
      | .ok s1 => .ok (setMode env .StandbyMode s1)
      | .panicked s1 => .panicked s1
      | .stuck => .stuck := by
  unfold Send
  rw [if_neg (by simp [hs]), if_neg hlen]

/-- C7: the transmit-completion wait polls the mode register with no
iteration bound: on a chip that forever reports TransmitterMode and
never fails a register operation, finishTX exhausts every fuel budget
(the loop never terminates), and consequently a Send call never
returns. -/
theorem C7_finishTX_unbounded :
    (∀ (fuel numBytes : Nat) (s : St), s.err = false →
      finishTX stuckEnv fuel numBytes s = .stuck) ∧
    (∀ fuel : Nat, Send stuckEnv fuel [1, 2, 3] (initSt []) = .stuck) := by
  constructor
  · intro fuel numBytes s hs
    exact finishTXLoop_stuckEnv fuel s hs
  · intro fuel
    cases fuel with
    | zero => rfl
    | succ fuel =>
      rw [Send_unfold stuckEnv (fuel + 1) [1, 2, 3] (initSt []) rfl (by decide)]
      rw [transmit_stuck (fuel + 1) _ _ (by decide) (by decide) (by decide)]

/-- C7 witness: the nontermination lemma applied at a concrete state and
fuel. -/
theorem C7_finishTX_unbounded_witness :
    (initSt []).err = false ∧
    finishTX stuckEnv 5 0 (initSt []) = .stuck ∧
    Send stuckEnv 5 [1, 2, 3] (initSt []) = .stuck :=
  ⟨rfl, C7_finishTX_unbounded.1 5 0 (initSt []) rfl, C7_finishTX_unbounded.2 5⟩

end Rfm69

namespace Rfm69

@[simp] theorem fifoWrites_nil : fifoWrites [] = [] := rfl

@[simp] theorem fifoWrites_snoc_readReg (es : List Event) (a v : Nat) :
    fifoWrites (es ++ [.readReg a v]) = fifoWrites es := by
  rw [fifoWrites_append]
  simp [fifoWrites]

@[simp] theorem fifoWrites_snoc_writeReg (es : List Event) (a v : Nat) :
    fifoWrites (es ++ [.writeReg a v]) = fifoWrites es := by
  rw [fifoWrites_append]
  simp [fifoWrites]

@[simp] theorem fifoWrites_snoc_burst_fifo (es : List Event) (d : List Nat) :
    fifoWrites (es ++ [.writeBurst RegFifo d]) = fifoWrites es ++ [d] := by
  rw [fifoWrites_append]
  simp [fifoWrites]

@[simp] theorem fifoWrites_writeRegister (env : Env) (a v : Nat) (s : St) :
    fifoWrites (writeRegister env a v s).events = fifoWrites s.events := by
  simp [writeRegister]

@[simp] theorem fifoWrites_writeBurst_fifo (env : Env) (d : List Nat) (s : St) :
    fifoWrites (writeBurst env RegFifo d s).events = fifoWrites s.events ++ [d] := by
  simp [writeBurst]

@[simp] theorem fifoWrites_setMode (env : Env) (m : Mode) (s : St) :
    fifoWrites (setMode env m s).events = fifoWrites s.events := by
  simp

@[simp] theorem fifoWrites_clearFIFO (env : Env) (s : St) :
    fifoWrites (clearFIFO env s).events = fifoWrites s.events := by
  simp [clearFIFO]

@[simp] theorem fifoWrites_readMode_snd (env : Env) (s : St) :
    fifoWrites (readMode env s).2.events = fifoWrites s.events := by
  unfold readMode readRegister
  norm_num [RegOpMode, RegFifo]

@[simp] theorem fifoWrites_threshold_snd (env : Env) (s : St) :
    fifoWrites (fifoThresholdExceeded env s).2.events = fifoWrites s.events := by
  unfold fifoThresholdExceeded readRegister
  norm_num [RegIrqFlags2, RegFifo]

@[simp] theorem finishOut_ok (env : Env) (fuel avail : Nat) (s : St) :
    finishOut env fuel (.ok (avail, s)) = finishTX env fuel avail s := rfl

@[simp] theorem fifoThresholdExceeded_coop_fst (s : St) :
    (fifoThresholdExceeded coopEnv s).1 = false := by
  unfold fifoThresholdExceeded readRegister
  norm_num [RegIrqFlags2, RegFifo, FifoLevel, coopEnv]
  cases hr : s.rxFifo with
  | nil =>
    simp [hr]
    decide
  | cons a l =>
    simp [hr]
    decide

@[simp] theorem fifoThresholdExceeded_snd_err (env : Env) (s : St) :
    (fifoThresholdExceeded env s).2.err = (s.err || env.fails s.opCount) := by
  unfold fifoThresholdExceeded readRegister
  norm_num [RegIrqFlags2, RegFifo]

@[simp] theorem fifoThresholdExceeded_snd_rxFifo (env : Env) (s : St) :
    (fifoThresholdExceeded env s).2.rxFifo = s.rxFifo := by
  unfold fifoThresholdExceeded readRegister
  norm_num [RegIrqFlags2, RegFifo]

theorem finishTXLoop_coop (fuel : Nat) (s : St) (hs : s.err = false) :
    finishTXLoop coopEnv (fuel + 1) s = .ok (readMode coopEnv s).2 := by
  rw [finishTXLoop_succ, if_neg (by simp [hs])]
  simp only [readMode_fst_coop, if_pos rfl]
  simp

theorem pollNotThreshold_coop (fuel avail : Nat) (s : St) (hs : s.err = false) :
    pollNotThreshold coopEnv (fuel + 1) avail s =
      .ok (fifoSize - fifoThreshold, (fifoThresholdExceeded coopEnv s).2) := by
  rw [pollNotThreshold_succ, if_neg (by simp [hs])]
  simp

theorem transmit_coop_small (fuel : Nat) (d : List Nat) (s : St) (hs : s.err = false)
    (h1 : 0 < d.length) (h2 : d.length ≤ 66) :
    transmit coopEnv (fuel + 1) d s =
      .ok (readMode coopEnv (writeBurst coopEnv RegFifo d s)).2 := by
  unfold transmit
  rw [transmitLoop_once coopEnv fuel fifoSize d s hs h1 (by simpa [fifoSize] using h2)]
  exact finishTXLoop_coop fuel _ (by simp [writeBurst, hs, coopEnv])

theorem transmit_coop_two (fuel : Nat) (d : List Nat) (s : St) (hs : s.err = false)
    (_hrx : s.rxFifo = []) (h1 : 66 < d.length) (h2 : d.length ≤ 112) :
    transmit coopEnv (fuel + 2) d s =
      .ok (readMode coopEnv (writeBurst coopEnv RegFifo (d.drop 66)
        ((fifoThresholdExceeded coopEnv (writeBurst coopEnv RegFifo (d.take 66) s)).2))).2 := by
  have ha2 : (if fifoSize > d.length then d.length else fifoSize) = fifoSize := by
    rw [if_neg]
    simp only [fifoSize, gt_iff_lt, not_lt]
    omega
  have hlen2 : ¬(d.drop fifoSize).length = 0 := by
    simp only [List.length_drop, fifoSize]
    omega
  have hfs : fifoSize = 66 := rfl
  unfold transmit
  rw [show fuel + 2 = (fuel + 1) + 1 from rfl, transmitLoop_succ]
  simp only [if_neg (show ¬s.err = true from by simp [hs]), ha2, if_neg hlen2]
  rw [pollNotThreshold_coop fuel fifoSize _ (by simp [writeBurst, hs, coopEnv])]
  show finishOut coopEnv (fuel + 1 + 1)
      (transmitLoop coopEnv (fuel + 1) (fifoSize - fifoThreshold) (List.drop fifoSize d)
        ((fifoThresholdExceeded coopEnv (writeBurst coopEnv RegFifo (List.take fifoSize d) s)).2)) = _
  rw [transmitLoop_once coopEnv fuel (fifoSize - fifoThreshold) (List.drop fifoSize d) _
    (by simp [writeBurst, hs, coopEnv])
    (by simp only [List.length_drop, fifoSize]; omega)
    (by simp only [List.length_drop, fifoSize, fifoThreshold]; omega)]
  rw [finishOut_ok, hfs]
  exact finishTXLoop_coop (fuel + 1) _ (by simp [writeBurst, hs, coopEnv])

theorem set_append_length (xs ys : List Nat) (v : Nat) :
    (xs ++ ys).set xs.length v = xs ++ ys.set 0 v := by
  induction xs with
  | nil => simp
  | cons a l ih => simp [ih]

theorem packet_eq (data : List Nat) (h : data.length ≤ 110) :
    ((goCopy (List.replicate 115 0) data).set data.length 0).take (data.length + 1) =
      data ++ [0] := by
  have h115 : data.length ≤ 115 := by omega
  unfold goCopy
  simp only [List.length_replicate]
  rw [List.take_of_length_le h115, min_eq_left h115,
    List.drop_replicate, set_append_length,
    show 115 - data.length = (114 - data.length) + 1 from by omega,
    List.replicate_succ, List.set_cons_zero, List.take_append_eq_append_take,
    List.take_of_length_le (by omega : data.length ≤ data.length + 1),
    show data.length + 1 - data.length = 1 from by omega]
  simp

end Rfm69

namespace Rfm69

/-- C3: Send on a fresh clear-latch instance, with hardware whose
FifoLevel flag reads clear and whose operations never fail, writes to the
FIFO exactly payload ++ [0x00], as burst writes in which every chunk is
at most fifoSize = 66 bytes and every chunk after the first is at most
fifoSize - fifoThreshold = 46 bytes. -/
theorem C3_send_chunked (data : List Nat) (hlen : data.length ≤ 110) :
    ∃ s1, Send coopEnv 3 data (initSt []) = .ok s1 ∧
      (fifoWrites s1.events).flatten = data ++ [0] ∧
      (∀ c ∈ fifoWrites s1.events, c.length ≤ fifoSize) ∧
      (∀ c ∈ (fifoWrites s1.events).tail, c.length ≤ fifoSize - fifoThreshold) := by
  rw [Send_unfold coopEnv 3 data (initSt []) rfl (by simp only [maxPacketSize]; omega)]
  rw [show (initSt ([] : List Nat)).txPacket = List.replicate 115 0 from rfl]
  rw [packet_eq data hlen]
  rcases Nat.lt_or_ge data.length 66 with hsm | hlg
  · rw [show (3 : Nat) = 2 + 1 from rfl]
    rw [transmit_coop_small 2 (data ++ [0])]
    · refine ⟨_, rfl, ?_, ?_, ?_⟩
      · simp [initSt]
      · intro c hc
        simp [initSt] at hc
        subst hc
        simp only [List.length_append, List.length_singleton, fifoSize]
        omega
      · intro c hc
        simp [initSt] at hc
    · simp [writeRegister, clearFIFO, initSt, coopEnv]
    · simp
    · simp only [List.length_append, List.length_singleton]
      omega
  · rw [show (3 : Nat) = 1 + 2 from rfl]
    rw [transmit_coop_two 1 (data ++ [0])]
    · refine ⟨_, rfl, ?_, ?_, ?_⟩
      · simp [initSt]
      · intro c hc
        simp [initSt] at hc
        rcases hc with hc | hc
        · subst hc
          simp only [List.length_take, fifoSize]
          omega
        · subst hc
          simp only [List.length_drop, List.length_append, List.length_singleton, fifoSize]
          omega
      · intro c hc
        simp [initSt] at hc
        subst hc
        simp only [List.length_drop, List.length_append, List.length_singleton,
          fifoSize, fifoThreshold]
        omega
    · simp [writeRegister, clearFIFO, initSt, coopEnv]
    · simp [writeRegister, clearFIFO, initSt]
    · simp only [List.length_append, List.length_singleton]
      omega
    · simp only [List.length_append, List.length_singleton]
      omega

/-- C3 witness: the chunking theorem applied to the spec's example
payload. -/
theorem C3_send_chunked_witness :
    [1, 2, 3].length ≤ 110 ∧
    (∃ s1, Send coopEnv 3 [1, 2, 3] (initSt []) = .ok s1 ∧
      (fifoWrites s1.events).flatten = [1, 2, 3] ++ [0] ∧
      (∀ c ∈ fifoWrites s1.events, c.length ≤ fifoSize) ∧
      (∀ c ∈ (fifoWrites s1.events).tail, c.length ≤ fifoSize - fifoThreshold)) :=
  ⟨by decide, C3_send_chunked [1, 2, 3] (by decide)⟩

end Rfm69

namespace Rfm69

theorem receiveLoop_succ (env : Env) (fuel : Nat) (timeout rssi : Int) (s : St) :
    receiveLoop env (fuel + 1) timeout rssi s =
      if s.err then .ok (none, rssi, s)
      else
        if (fifoEmpty env s).1 then
          if timeout ≤ 0 then .ok (none, rssi, (fifoEmpty env s).2)
          else receiveLoop env fuel (timeout - byteDuration) rssi (fifoEmpty env s).2
        else
          if (readRegister env RegFifo (fifoEmpty env s).2).2.err then
            .ok (none, rssi, (readRegister env RegFifo (fifoEmpty env s).2).2)
          else if (readRegister env RegFifo (fifoEmpty env s).2).1 = 0 then
            .ok (finishRX env rssi (readRegister env RegFifo (fifoEmpty env s).2).2)
          else
            receiveLoop env fuel timeout rssi
              { (readRegister env RegFifo (fifoEmpty env s).2).2 with
                receiveBuffer :=
                  (readRegister env RegFifo (fifoEmpty env s).2).2.receiveBuffer ++
                    [(readRegister env RegFifo (fifoEmpty env s).2).1] } := rfl

/-- Draining a zero-free prefix p followed by a 0 terminator from the
FIFO: the raw receive loop accumulates exactly p and then finishes the
packet on the 0 byte. -/
theorem receiveLoop_consume :
    ∀ (p : List Nat), 0 ∉ p →
      ∀ (f : Nat) (rest : List Nat) (timeout rssi : Int) (s : St),
        s.err = false → s.rxFifo = p ++ 0 :: rest →
        ∃ s1, receiveLoop coopEnv (p.length + (f + 1)) timeout rssi s =
            .ok (finishRX coopEnv rssi s1) ∧
          s1.receiveBuffer = s.receiveBuffer ++ p ∧ s1.err = false := by
  intro p
  induction p with
  | nil =>
    intro h0 f rest timeout rssi s hs hrx
    refine ⟨(readRegister coopEnv RegFifo (fifoEmpty coopEnv s).2).2, ?_, ?_, ?_⟩
    · rw [show ([] : List Nat).length + (f + 1) = f + 1 from by simp]
      rw [receiveLoop_succ, if_neg (by simp [hs])]
      rw [if_neg (by simp [hrx])]
      rw [if_neg (by simp [hs, coopEnv])]
      rw [if_pos (by simp [hrx])]
    · simp
    · simp [hs, coopEnv]
  | cons a p' ih =>
    intro h0 f rest timeout rssi s hs hrx
    have ha : a ≠ 0 := by
      intro h
      exact h0 (by simp [h])
    have h0' : 0 ∉ p' := by
      intro h
      exact h0 (by simp [h])
    rw [show (a :: p').length + (f + 1) = p'.length + (f + 1) + 1 from by
      simp only [List.length_cons]; omega]
    rw [receiveLoop_succ, if_neg (by simp [hs])]
    rw [if_neg (by simp [hrx])]
    rw [if_neg (by simp [hs, coopEnv])]
    rw [if_neg (by simp [hrx, ha])]
    rw [show (readRegister coopEnv RegFifo (fifoEmpty coopEnv s).2).1 = a from by simp [hrx]]
    obtain ⟨s1, heq, hbuf, herr⟩ :=
      ih h0' f rest timeout rssi
        { (readRegister coopEnv RegFifo (fifoEmpty coopEnv s).2).2 with
          receiveBuffer :=
            (readRegister coopEnv RegFifo (fifoEmpty coopEnv s).2).2.receiveBuffer ++ [a] }
        (by simp [hs, coopEnv]) (by simp [hrx])
    refine ⟨s1, heq, ?_, herr⟩
    rw [hbuf]
    simp

theorem Receive_unfold (env : Env) (fuel : Nat) (timeout : Int) (s : St)
    (hs : s.err = false) :
    Receive env fuel timeout s =
      deferSleep env (receiveLoop env fuel timeout env.rssi
        (readRSSI env (awaitInterrupt env timeout (setMode env .ReceiverMode
          (writeRegister env RegAutoModes 0 s)))).2) := by
  unfold Receive
  rw [if_neg (by simp [hs])]
  rfl

/-- C8: feeding the raw frame payload ++ [0x00] (exactly what Send
writes, see C3) through the raw receive delimiter reconstructs the
payload: the delimiter stops at the first zero byte and the delivered
packet holds precisely the payload bytes (Go's nil return for an empty
capture carries the same, empty, byte content). -/
theorem C8_raw_roundtrip (p : List Nat) (h0 : 0 ∉ p) (hlen : p.length ≤ 110) :
    ∃ (res : Option (List Nat)) (s1 : St),
      Receive coopEnv (p.length + 2) 0 (initSt (p ++ [0])) = .ok (res, coopEnv.rssi, s1) ∧
      res.getD [] = p := by
  rw [Receive_unfold coopEnv (p.length + 2) 0 (initSt (p ++ [0])) rfl]
  rw [show p.length + 2 = p.length + (1 + 1) from rfl]
  obtain ⟨s1, heq, hbuf, herr⟩ :=
    receiveLoop_consume p h0 1 [] 0 coopEnv.rssi
      ((readRSSI coopEnv (awaitInterrupt coopEnv 0 (setMode coopEnv .ReceiverMode
        (writeRegister coopEnv RegAutoModes 0 (initSt (p ++ [0])))))).2)
      (by simp [writeRegister, awaitInterrupt, coopEnv, initSt])
      (by simp [writeRegister, awaitInterrupt, initSt])
  rw [heq]
  have hb : s1.receiveBuffer = p := by
    rw [hbuf]
    simp [writeRegister, awaitInterrupt, initSt]
  by_cases hp : p = []
  · subst hp
    refine ⟨none, setMode coopEnv .SleepMode (setMode coopEnv .StandbyMode s1), ?_, rfl⟩
    simp [finishRX, deferSleep, hb]
  · refine ⟨some p,
      setMode coopEnv .SleepMode
        { setMode coopEnv .StandbyMode s1 with err := false, receiveBuffer := [] },
      ?_, by simp⟩
    simp [finishRX, deferSleep, hb, hp]

/-- C8 witness: the round trip at a concrete zero-free payload. -/
theorem C8_raw_roundtrip_witness :
    (0 ∉ [1, 2, 3]) ∧ [1, 2, 3].length ≤ 110 ∧
    (∃ (res : Option (List Nat)) (s1 : St),
      Receive coopEnv ([1, 2, 3].length + 2) 0 (initSt ([1, 2, 3] ++ [0])) =
        .ok (res, coopEnv.rssi, s1) ∧ res.getD [] = [1, 2, 3]) :=
  ⟨by decide, by decide, C8_raw_roundtrip [1, 2, 3] (by decide) (by decide)⟩

end Rfm69
